import Mathlib

/-!
# Verification of the CharacterModal loadout logic

Shallow embedding of the state and event handlers of
`src/frontend/src/components/CharacterModal.jsx`: character navigation,
equipment slot selection, and hissatsu (technique) list management, plus a
spec-modelled stat engine (`computeStats`) standing in for the external
`calculateStats` helper imported from `../data/mock`, which is not part of
this source tree.

JavaScript peculiarities are embedded faithfully:
* `%` on numbers is the truncated remainder (`Int.tmod`);
* `arr[i] = x` with `i = arr.length` appends, with `i > arr.length` pads the
  array with holes (`undefined`, embedded as `none`) before the new entry, and
  with negative `i` sets a non-index property, leaving the array elements
  unchanged;
* `arr.splice(i, 1)` clamps a negative `i` to `max(arr.length + i, 0)`, clamps
  a large `i` to `arr.length`, and removes at most one element there;
* `Array.prototype.findIndex` yields `-1` when no element matches.
-/

set_option autoImplicit false

/-- One displayed stat: the main value and the secondary (in-parentheses)
value. Stat values are JS numbers used integrally here. -/
structure StatPair where
  main : Int
  secondary : Int
deriving DecidableEq, Repr

/-- An equipment item from the catalog (`mockEquipment`): its per-stat numeric
bonuses are a finite map from stat name to bonus, embedded as an association
list (unknown stat names are simply never looked up). -/
structure Equipment where
  id : Nat
  name : String
  category : String
  rarity : String
  stats : List (String × Int)
deriving DecidableEq, Repr

/-- A hissatsu (special technique) item from the catalog (`mockHissatsu`). -/
structure Hissatsu where
  id : Nat
  name : String
  description : String
  hissatsuType : String
deriving DecidableEq, Repr

/-- Reference data for one character, as consumed by the component. -/
structure Character where
  id : Nat
  name : String
  position : String
  jerseyNumber : Nat
  baseLevel : Nat
  baseRarity : String
  baseStats : List (String × StatPair)
  hissatsu : List Hissatsu
deriving DecidableEq, Repr

/-- The `selectedEquipment` state object: exactly one slot per category,
each empty (`null`) or holding one item (lines 17–22 of the source). -/
structure SelectedEquipment where
  boots : Option Equipment
  bracelet : Option Equipment
  pendant : Option Equipment
  special_ : Option Equipment
deriving DecidableEq, Repr

/-- The four equipment slot categories. -/
inductive Category where
  | boots
  | bracelet
  | pendant
  | special_
deriving DecidableEq, Repr

/-- Read one slot of `selectedEquipment` by category key. -/
def SelectedEquipment.slot (e : SelectedEquipment) : Category → Option Equipment
  | .boots => e.boots
  | .bracelet => e.bracelet
  | .pendant => e.pendant
  | .special_ => e.special_

/-- The object spread `{ ...prev, [category]: item }`: overwrite one slot. -/
def SelectedEquipment.setSlot (e : SelectedEquipment) (c : Category)
    (item : Equipment) : SelectedEquipment :=
  match c with
  | .boots => { e with boots := some item }
  | .bracelet => { e with bracelet := some item }
  | .pendant => { e with pendant := some item }
  | .special_ => { e with special_ := some item }

/-- The all-`null` equipment object (lines 17–22 and 71–76 of the source). -/
def emptyEquipment : SelectedEquipment :=
  ⟨none, none, none, none⟩

/-- The direction argument of `navigateCharacter` (`'next'` / `'prev'`). -/
inductive Direction where
  | next
  | prev
deriving DecidableEq, Repr

/-- The component's `useState` state (lines 12–27 of the source). The hissatsu
list holds `Option Hissatsu` so that the holes a JS out-of-bounds array
assignment creates (`undefined` entries) are representable; ordinary entries
are `some`. -/
structure ModalState where
  currentCharacterIndex : Int
  userLevel : Nat
  userRarity : String
  selectedEquipment : SelectedEquipment
  selectedHissatsu : List (Option Hissatsu)
  showEquipmentList : Bool
  showHissatsuList : Bool
  selectedCategory : Option Category
  hissatsuSlotIndex : Option Int
deriving DecidableEq, Repr

/-- `Array.prototype.findIndex`: index of the first match, `-1` if none. -/
def jsFindIndex {α : Type} (p : α → Bool) (l : List α) : Int :=
  match l.findIdx? p with
  | some i => (i : Int)
  | none => -1

/-- The initial state (lines 12–27): index of the opened character in
`allCharacters`, the character's own base level/rarity, empty equipment, and
the character's own hissatsu list (`character.hissatsu || []`). -/
def initialModalState (character : Character) (allCharacters : List Character) :
    ModalState where
  currentCharacterIndex :=
    jsFindIndex (fun c => c.id == character.id) allCharacters
  userLevel := character.baseLevel
  userRarity := character.baseRarity
  selectedEquipment := emptyEquipment
  selectedHissatsu := character.hissatsu.map some
  showEquipmentList := false
  showHissatsuList := false
  selectedCategory := none
  hissatsuSlotIndex := none

/-- `navigateCharacter` (lines 62–77): move to the adjacent index with
wraparound (JS `%` is `Int.tmod`), then reset the user preferences: level to
the literal `99`, rarity to the literal `'Legendary'`, and all equipment slots
to `null`. The hissatsu list is not touched. `n` is `allCharacters.length`. -/
def navigateCharacter (n : Int) (direction : Direction) (s : ModalState) :
    ModalState :=
  let newIndex : Int :=
    match direction with
    | .next => (s.currentCharacterIndex + 1).tmod n
    | .prev => (s.currentCharacterIndex - 1 + n).tmod n
  { s with
    currentCharacterIndex := newIndex
    userLevel := 99
    userRarity := "Legendary"
    selectedEquipment := emptyEquipment }

/-- The slot tile click (lines 323–326): remember the clicked category and
open the equipment list modal. -/
def clickEquipmentSlot (c : Category) (s : ModalState) : ModalState :=
  { s with selectedCategory := some c, showEquipmentList := true }

/-- `handleEquipmentSelect` (lines 79–87): write the picked item into the slot
named by `selectedCategory` (spread overwrite, last write wins), close the
list, clear the pending category. The equipment list modal only renders when
`selectedCategory` is set (line 444), so the handler is reached with a
category; with `null` the spread would add a spurious `"null"` key that none
of the four slots is, leaving them unchanged. -/
def handleEquipmentSelect (equipment : Equipment) (s : ModalState) :
    ModalState :=
  match s.selectedCategory with
  | some c =>
      { s with
        selectedEquipment := s.selectedEquipment.setSlot c equipment
        showEquipmentList := false
        selectedCategory := none }
  | none =>
      { s with showEquipmentList := false, selectedCategory := none }

/-- JS array element assignment `arr[i] = x` on an array of (possibly absent)
hissatsu entries: in range it overwrites; at or past the length it extends the
array, padding with holes; a negative index creates a non-index property and
leaves the array elements as they were. -/
def jsArrayAssign (l : List (Option Hissatsu)) (i : Int) (x : Hissatsu) :
    List (Option Hissatsu) :=
  if i < 0 then l
  else if i.toNat < l.length then l.set i.toNat (some x)
  else l ++ List.replicate (i.toNat - l.length) none ++ [some x]

/-- `handleHissatsuSelect` (lines 89–97): when a slot index is pending, copy
the list, assign the picked technique at that index, close the modal and clear
the pending index; otherwise do nothing. -/
def handleHissatsuSelect (hissatsu : Hissatsu) (s : ModalState) : ModalState :=
  match s.hissatsuSlotIndex with
  | some i =>
      { s with
        selectedHissatsu := jsArrayAssign s.selectedHissatsu i hissatsu
        showHissatsuList := false
        hissatsuSlotIndex := none }
  | none => s

/-- `arr.splice(i, 1)`: the start position is `max(len + i, 0)` for negative
`i` and `min(i, len)` otherwise; one element is removed there if any. -/
def jsSpliceRemove1 {α : Type} (l : List α) (i : Int) : List α :=
  let start : Nat :=
    if i < 0 then ((l.length : Int) + i).toNat else min i.toNat l.length
  l.take start ++ l.drop (start + 1)

/-- `handleRemoveHissatsu` (lines 99–103): copy the list, `splice(index, 1)`,
store the result. -/
def handleRemoveHissatsu (index : Int) (s : ModalState) : ModalState :=
  { s with selectedHissatsu := jsSpliceRemove1 s.selectedHissatsu index }

/-- `handleAddHissatsu` (lines 105–110): only when the list holds fewer than 4
entries, set the pending slot index to the current length (the next free
index) and open the technique list; at 4 or more the call does nothing (the
Add button is also disabled then, line 376). -/
def handleAddHissatsu (s : ModalState) : ModalState :=
  if s.selectedHissatsu.length < 4 then
    { s with
      hissatsuSlotIndex := some (s.selectedHissatsu.length : Int)
      showHissatsuList := true }
  else s

/-- `handleChangeHissatsu` (lines 112–115): set the pending slot index to the
clicked entry's index and open the technique list. -/
def handleChangeHissatsu (index : Int) (s : ModalState) : ModalState :=
  { s with hissatsuSlotIndex := some index, showHissatsuList := true }

/-- A whole navigation session: fold `navigateCharacter` over a sequence of
clicks on the two arrows. -/
def navigateSeq (n : Int) (ds : List Direction) (s : ModalState) : ModalState :=
  ds.foldl (fun st d => navigateCharacter n d st) s

/-- `k` clicks on the forward (`'next'`) arrow. -/
def navigateForward (n : Int) : Nat → ModalState → ModalState
  | 0, s => s
  | k + 1, s => navigateForward n k (navigateCharacter n .next s)

/-- The error kind of the stat engine (spec §7): level or rarity outside the
valid domain. -/
inductive StatError where
  | InvalidInput
deriving DecidableEq, Repr

/-- The four known rarity tiers, in the order of the rarity dropdown
(lines 267–270 of the source). -/
def rarityTiers : List String :=
  ["Common", "Rare", "Epic", "Legendary"]

/-- Modelled from the spec: the rarity-scaling coefficient of `computeStats`.
`calculateStats` is imported from `../data/mock`, which is not part of this
source tree; the spec (§4.1, §9) leaves the exact scaling formula an
implementation choice, requiring only that it be deterministic and monotone,
so a representative coefficient per tier is used. -/
def rarityMultiplier : String → Int
  | "Rare" => 2
  | "Epic" => 3
  | "Legendary" => 4
  | _ => 1

/-- Bonus an optional equipped item grants to one stat name: the sum of the
item's bonus-map entries carrying that name. An empty slot grants 0, and stat
names foreign to the item's bonus map grant 0 (they are ignored, spec §4.1). -/
def bonusOf (item : Option Equipment) (statName : String) : Int :=
  match item with
  | none => 0
  | some e => ((e.stats.filter (fun p => p.1 == statName)).map Prod.snd).sum

/-- Total bonus of the four equipment slots for one stat name. -/
def equipmentBonus (loadout : SelectedEquipment) (statName : String) : Int :=
  bonusOf loadout.boots statName + bonusOf loadout.bracelet statName +
    bonusOf loadout.pendant statName + bonusOf loadout.special_ statName

/-- Modelled from the spec: `computeStats` (spec §4.1), standing in for the
external `calculateStats` helper from `../data/mock`, which is not part of
this source tree. It rejects a level outside `[1, 99]` or a rarity outside
the four known tiers with `InvalidInput`; otherwise it scales each base stat
by level and rarity and adds the summed equipment bonuses to the main value.
Empty slots are valid and contribute nothing. -/
def computeStats (character : Character) (loadout : SelectedEquipment)
    (level : Nat) (rarity : String) :
    Except StatError (List (String × StatPair)) :=
  if level < 1 ∨ 99 < level then .error .InvalidInput
  else if rarity ∈ rarityTiers then
    .ok (character.baseStats.map (fun p =>
      (p.1,
        ⟨p.2.main * (level : Int) * rarityMultiplier rarity +
            equipmentBonus loadout p.1,
          p.2.secondary⟩)))
  else .error .InvalidInput

/-! Concrete fixtures, used by the concrete-instance theorems below. -/

/-- Fixture technique. -/
def hFireTornado : Hissatsu :=
  ⟨1, "Fire Tornado", "A flaming overhead shot", "Shot"⟩

/-- Fixture technique. -/
def hGodHand : Hissatsu :=
  ⟨2, "God Hand", "A giant catching hand", "Catch"⟩

/-- Fixture technique. -/
def hMajinTheHand : Hissatsu :=
  ⟨3, "Majin The Hand", "A demon catching hand", "Catch"⟩

/-- Fixture technique. -/
def hEternalBlizzard : Hissatsu :=
  ⟨4, "Eternal Blizzard", "An icy long shot", "Shot"⟩

/-- Fixture technique. -/
def hDragonCrash : Hissatsu :=
  ⟨5, "Dragon Crash", "A dragon-shaped shot", "Shot"⟩

/-- Fixture equipment item. -/
def eqBootsA : Equipment :=
  ⟨11, "Sonic Boots", "Boots", "Rare", [("kick", 5), ("agility", 3)]⟩

/-- Fixture equipment item. -/
def eqBootsB : Equipment :=
  ⟨12, "Omega Boots", "Boots", "Epic", [("kick", 9)]⟩

/-- Fixture character: base level 50, base rarity `"Rare"`, one technique. -/
def chMark : Character :=
  ⟨1, "Mark Evans", "GK", 1, 50, "Rare",
    [("kick", ⟨62, 8⟩), ("control", ⟨71, 9⟩)], [hGodHand]⟩

/-- Fixture character. -/
def chAxel : Character :=
  ⟨2, "Axel Blaze", "FW", 10, 60, "Epic", [("kick", ⟨95, 12⟩)], [hFireTornado]⟩

/-- Fixture state: the modal opened on `chMark` from a two-character list. -/
def sampleState : ModalState :=
  initialModalState chMark [chMark, chAxel]

/-- Fixture state whose technique list is full (4 entries). -/
def fullState : ModalState :=
  { sampleState with
    selectedHissatsu :=
      [some hGodHand, some hFireTornado, some hMajinTheHand,
        some hEternalBlizzard] }

/-- Fixture state: one technique, slot index 1 pending (one past the end). -/
def outOfRangeState : ModalState :=
  { sampleState with hissatsuSlotIndex := some 1 }

/-- Fixture state: one technique, slot index 3 pending (far past the end). -/
def bigIndexState : ModalState :=
  { sampleState with hissatsuSlotIndex := some 3 }

/-- Fixture state with a two-entry technique list. -/
def twoState : ModalState :=
  { sampleState with
    selectedHissatsu := [some hGodHand, some hFireTornado] }

/-- C1 counterexample: navigating away from `sampleState` (whose technique
list holds God Hand) leaves the technique list exactly as it was — it is not
emptied, contradicting the claim that the on-switch reset empties the
technique list. -/
theorem C1_counterexample :
    (navigateCharacter 2 .next sampleState).selectedHissatsu =
      [some hGodHand] ∧
    (navigateCharacter 2 .next sampleState).selectedHissatsu ≠ [] := by
  constructor
  · rfl
  · intro h
    simp [navigateCharacter, sampleState, initialModalState, chMark] at h

/-- C1 (amended): on every character switch, all 4 equipment slots are
cleared, but the technique (hissatsu) list is left unchanged — it is not
emptied. -/
theorem C1_navigation_reset (n : Int) (d : Direction) (s : ModalState) :
    (navigateCharacter n d s).selectedEquipment = emptyEquipment ∧
    (navigateCharacter n d s).selectedHissatsu = s.selectedHissatsu := by
  cases d <;> exact ⟨rfl, rfl⟩

/-- C2 counterexample: navigating forward from Mark lands on Axel, whose base
level is 60 and base rarity `"Epic"`, yet the state ends up with level 99 and
rarity `"Legendary"` — the newly selected character's base defaults are not
restored. -/
theorem C2_counterexample :
    (navigateCharacter 2 .next sampleState).currentCharacterIndex = 1 ∧
    [chMark, chAxel].get? 1 = some chAxel ∧
    chAxel.baseLevel = 60 ∧
    chAxel.baseRarity = "Epic" ∧
    (navigateCharacter 2 .next sampleState).userLevel = 99 ∧
    (navigateCharacter 2 .next sampleState).userRarity = "Legendary" ∧
    (navigateCharacter 2 .next sampleState).userLevel ≠ chAxel.baseLevel ∧
    (navigateCharacter 2 .next sampleState).userRarity ≠ chAxel.baseRarity := by
  refine ⟨rfl, rfl, rfl, rfl, rfl, rfl, by decide, by decide⟩

/-- C2 (amended): on every navigation, the level is set to the fixed literal
99 and the rarity to the fixed literal `"Legendary"`, regardless of which
character becomes current. -/
theorem C2_navigation_fixed_defaults (n : Int) (d : Direction)
    (s : ModalState) :
    (navigateCharacter n d s).userLevel = 99 ∧
    (navigateCharacter n d s).userRarity = "Legendary" := by
  cases d <;> exact ⟨rfl, rfl⟩

/-- C3 counterexample: with the technique list full (4 entries), the add
attempt leaves the entire state unchanged — nothing records or surfaces any
error, contradicting the claim that the attempt fails with a CapacityExceeded
error. -/
theorem C3_counterexample :
    fullState.selectedHissatsu.length = 4 ∧
    handleAddHissatsu fullState = fullState := by
  exact ⟨rfl, rfl⟩

/-- C3 (amended): with 4 entries the add attempt is a silent no-op (the whole
state is unchanged; no error value exists in the code, and the Add button is
disabled); with fewer than 4 entries the add flow appends the picked
technique at the next free index, the current length. -/
theorem C3_add_technique (s : ModalState) :
    (s.selectedHissatsu.length = 4 → handleAddHissatsu s = s) ∧
    (s.selectedHissatsu.length < 4 → ∀ t : Hissatsu,
      (handleHissatsuSelect t (handleAddHissatsu s)).selectedHissatsu =
        s.selectedHissatsu ++ [some t]) := by
  constructor
  · intro h4
    simp [handleAddHissatsu, h4]
  · intro hlt t
    simp only [handleAddHissatsu, if_pos hlt, handleHissatsuSelect,
      jsArrayAssign]
    have h0 : ¬ ((s.selectedHissatsu.length : Int) < 0) := by omega
    have h1 : ((s.selectedHissatsu.length : Int)).toNat =
        s.selectedHissatsu.length := by omega
    simp [h0, h1]

/-- C3 witness: the amended statement at concrete states — the full fixture
state is left unchanged, and adding Dragon Crash to the one-entry fixture
state appends it at index 1. -/
theorem C3_add_technique_witness :
    handleAddHissatsu fullState = fullState ∧
    (handleHissatsuSelect hDragonCrash
        (handleAddHissatsu sampleState)).selectedHissatsu =
      sampleState.selectedHissatsu ++ [some hDragonCrash] :=
  ⟨(C3_add_technique fullState).1 rfl,
    (C3_add_technique sampleState).2 (by decide) hDragonCrash⟩

/-- C4 counterexample: with a one-entry technique list and pending slot index
1 (outside `[0, 1)`), picking a technique does not fail and does not leave the
list unchanged — it appends at index 1, contradicting the claim that an
out-of-range index fails with IndexOutOfRange and leaves the list unchanged. -/
theorem C4_counterexample :
    outOfRangeState.selectedHissatsu.length = 1 ∧
    (handleHissatsuSelect hDragonCrash outOfRangeState).selectedHissatsu =
      [some hGodHand, some hDragonCrash] ∧
    (handleHissatsuSelect hDragonCrash outOfRangeState).selectedHissatsu ≠
      outOfRangeState.selectedHissatsu := by
  refine ⟨rfl, rfl, by decide⟩

/-- C4 (amended): no IndexOutOfRange error exists. For an index at or past
the length, the assignment-based replace extends the list (padding with holes
and putting the item last, so index = length appends), while remove leaves
the list unchanged; for a negative index, replace leaves the list unchanged
(JS sets a non-index property) while remove treats the index as
`length + index` clamped to 0 and removes the entry there (index −1 removes
the last entry). -/
theorem C4_out_of_range (s : ModalState) (i : Int) (t : Hissatsu) :
    (s.hissatsuSlotIndex = some i →
      ((s.selectedHissatsu.length : Int) ≤ i →
        (handleHissatsuSelect t s).selectedHissatsu =
          s.selectedHissatsu ++
            List.replicate (i.toNat - s.selectedHissatsu.length) none ++
            [some t]) ∧
      (i < 0 →
        (handleHissatsuSelect t s).selectedHissatsu = s.selectedHissatsu)) ∧
    ((s.selectedHissatsu.length : Int) ≤ i →
      (handleRemoveHissatsu i s).selectedHissatsu = s.selectedHissatsu) ∧
    (i < 0 →
      (handleRemoveHissatsu i s).selectedHissatsu =
        s.selectedHissatsu.take
            ((s.selectedHissatsu.length : Int) + i).toNat ++
          s.selectedHissatsu.drop
            (((s.selectedHissatsu.length : Int) + i).toNat + 1)) := by
  refine ⟨fun hsel => ⟨fun hge => ?_, fun hneg => ?_⟩, fun hge => ?_,
    fun hneg => ?_⟩
  · have h0 : ¬ (i < 0) := by omega
    have h1 : ¬ (i.toNat < s.selectedHissatsu.length) := by omega
    simp [handleHissatsuSelect, hsel, jsArrayAssign, h0, h1]
  · simp [handleHissatsuSelect, hsel, jsArrayAssign, hneg]
  · have h0 : ¬ (i < 0) := by omega
    have h1 : min i.toNat s.selectedHissatsu.length =
        s.selectedHissatsu.length := by omega
    simp [handleRemoveHissatsu, jsSpliceRemove1, h0, h1,
      List.drop_eq_nil_of_le]
  · simp [handleRemoveHissatsu, jsSpliceRemove1, hneg]

/-- C4 witness: the amended statement at concrete inputs — replacing at index
3 in a one-entry list pads with holes and appends; removing at index 5 of a
one-entry list changes nothing; removing at index −1 of a two-entry list
drops the last entry. -/
theorem C4_out_of_range_witness :
    (handleHissatsuSelect hDragonCrash bigIndexState).selectedHissatsu =
      [some hGodHand, none, none, some hDragonCrash] ∧
    (handleRemoveHissatsu 5 sampleState).selectedHissatsu =
      [some hGodHand] ∧
    (handleRemoveHissatsu (-1) twoState).selectedHissatsu =
      [some hGodHand] := by
  refine ⟨?_, ?_, ?_⟩
  · exact (((C4_out_of_range bigIndexState 3 hDragonCrash).1 rfl).1
      (by decide)).trans (by decide)
  · exact ((C4_out_of_range sampleState 5 hDragonCrash).2.1
      (by decide)).trans (by decide)
  · exact ((C4_out_of_range twoState (-1) hDragonCrash).2.2
      (by decide)).trans (by decide)

/-- C5 (confirmed): removing at a valid index `i` of a list of length `L`
yields length exactly `L − 1`, entries before `i` stay at their positions,
and entries after `i` shift left by one — the relative order of the remaining
entries is preserved. -/
theorem C5_remove_in_range (s : ModalState) (i : Int) (h0 : 0 ≤ i)
    (hlt : i < (s.selectedHissatsu.length : Int)) :
    (handleRemoveHissatsu i s).selectedHissatsu.length =
      s.selectedHissatsu.length - 1 ∧
    (∀ j : Nat, j < i.toNat →
      (handleRemoveHissatsu i s).selectedHissatsu[j]? =
        s.selectedHissatsu[j]?) ∧
    (∀ j : Nat, i.toNat ≤ j → j < s.selectedHissatsu.length - 1 →
      (handleRemoveHissatsu i s).selectedHissatsu[j]? =
        s.selectedHissatsu[j + 1]?) := by
  have hnneg : ¬ (i < 0) := by omega
  have hmin : min i.toNat s.selectedHissatsu.length = i.toNat := by omega
  have hres : (handleRemoveHissatsu i s).selectedHissatsu =
      s.selectedHissatsu.take i.toNat ++
        s.selectedHissatsu.drop (i.toNat + 1) := by
    simp [handleRemoveHissatsu, jsSpliceRemove1, hnneg, hmin]
  rw [hres]
  have hlen : (s.selectedHissatsu.take i.toNat).length = i.toNat := by
    simp
    omega
  refine ⟨?_, fun j hj => ?_, fun j hj1 hj2 => ?_⟩
  · simp
    omega
  · rw [List.getElem?_append_left (by omega),
      List.getElem?_take_of_lt (by omega)]
  · rw [List.getElem?_append_right (by omega), hlen, List.getElem?_drop]
    congr 1
    omega

/-- C5 witness: removing index 0 of the two-entry fixture list gives length
1, and its entry 0 is the old entry 1. -/
theorem C5_remove_in_range_witness :
    (handleRemoveHissatsu 0 twoState).selectedHissatsu.length =
      twoState.selectedHissatsu.length - 1 ∧
    (handleRemoveHissatsu 0 twoState).selectedHissatsu[0]? =
      twoState.selectedHissatsu[1]? :=
  ⟨(C5_remove_in_range twoState 0 (by decide) (by decide)).1,
    (C5_remove_in_range twoState 0 (by decide) (by decide)).2.2 0
      (by decide) (by decide)⟩

/-- Overwriting a slot twice keeps only the second item. -/
theorem setSlot_setSlot (e : SelectedEquipment) (c : Category)
    (a b : Equipment) :
    (e.setSlot c a).setSlot c b = e.setSlot c b := by
  cases c <;> rfl

/-- C6 (confirmed): equipping item `a` and then item `b` into the same
category leaves that slot holding exactly `b`; the resulting equipment object
is the one obtained by equipping only `b`, so the computed stats reflect only
`b`'s contribution. -/
theorem C6_last_write_wins (s : ModalState) (c : Category) (a b : Equipment)
    (ch : Character) (level : Nat) (rarity : String) :
    ((handleEquipmentSelect b (clickEquipmentSlot c
        (handleEquipmentSelect a
          (clickEquipmentSlot c s)))).selectedEquipment.slot c = some b) ∧
    ((handleEquipmentSelect b (clickEquipmentSlot c
        (handleEquipmentSelect a
          (clickEquipmentSlot c s)))).selectedEquipment =
      s.selectedEquipment.setSlot c b) ∧
    computeStats ch
        (handleEquipmentSelect b (clickEquipmentSlot c
          (handleEquipmentSelect a
            (clickEquipmentSlot c s)))).selectedEquipment level rarity =
      computeStats ch (s.selectedEquipment.setSlot c b) level rarity := by
  have heq : (handleEquipmentSelect b (clickEquipmentSlot c
      (handleEquipmentSelect a
        (clickEquipmentSlot c s)))).selectedEquipment =
      s.selectedEquipment.setSlot c b := by
    simp [handleEquipmentSelect, clickEquipmentSlot, setSlot_setSlot]
  refine ⟨?_, heq, by rw [heq]⟩
  rw [heq]
  cases c <;> rfl

/-- One navigation step keeps the character index inside `[0, n)`. -/
theorem navigateCharacter_index_bounds (n : Int) (hn : 0 < n) (d : Direction)
    (s : ModalState) (h0 : 0 ≤ s.currentCharacterIndex)
    (_hlt : s.currentCharacterIndex < n) :
    0 ≤ (navigateCharacter n d s).currentCharacterIndex ∧
    (navigateCharacter n d s).currentCharacterIndex < n := by
  cases d <;>
    simp only [navigateCharacter] <;>
    rw [Int.tmod_eq_emod (by omega) (by omega)] <;>
    exact ⟨Int.emod_nonneg _ (by omega), Int.emod_lt_of_pos _ hn⟩

/-- After `k` forward steps from an index in `[0, n)`, the index is
`(start + k) mod n`. -/
theorem navigateForward_index (n : Int) (hn : 0 < n) (k : Nat)
    (s : ModalState) (h0 : 0 ≤ s.currentCharacterIndex)
    (hlt : s.currentCharacterIndex < n) :
    (navigateForward n k s).currentCharacterIndex =
      (s.currentCharacterIndex + k) % n := by
  induction k generalizing s with
  | zero =>
      simp [navigateForward, Int.emod_eq_of_lt h0 hlt]
  | succ k ih =>
      have hb := navigateCharacter_index_bounds n hn .next s h0 hlt
      rw [navigateForward, ih _ hb.1 hb.2]
      have hstep : (navigateCharacter n .next s).currentCharacterIndex =
          (s.currentCharacterIndex + 1) % n := by
        simp only [navigateCharacter]
        exact Int.tmod_eq_emod (by omega) (by omega)
      rw [hstep, Int.emod_add_emod]
      congr 1
      push_cast
      ring

/-- C7 (confirmed): from an index in `[0, n)`, forward navigation moves to
`(i + 1) mod n`, backward navigation to `(i − 1 + n) mod n`, and `n` forward
steps return to the original index. -/
theorem C7_navigation_wraparound (n : Int) (s : ModalState) (hn : 1 ≤ n)
    (h0 : 0 ≤ s.currentCharacterIndex)
    (hlt : s.currentCharacterIndex < n) :
    (navigateCharacter n .next s).currentCharacterIndex =
      (s.currentCharacterIndex + 1) % n ∧
    (navigateCharacter n .prev s).currentCharacterIndex =
      (s.currentCharacterIndex - 1 + n) % n ∧
    (navigateForward n n.toNat s).currentCharacterIndex =
      s.currentCharacterIndex := by
  refine ⟨?_, ?_, ?_⟩
  · simp only [navigateCharacter]
    exact Int.tmod_eq_emod (by omega) (by omega)
  · simp only [navigateCharacter]
    exact Int.tmod_eq_emod (by omega) (by omega)
  · rw [navigateForward_index n (by omega) n.toNat s h0 hlt]
    have hcast : (n.toNat : Int) = n := by omega
    rw [hcast]
    calc (s.currentCharacterIndex + n) % n
        = s.currentCharacterIndex % n := by
          conv_lhs =>
            rw [show s.currentCharacterIndex + n =
              s.currentCharacterIndex + n * 1 by ring]
          exact Int.add_mul_emod_self_left _ _ _
      _ = s.currentCharacterIndex := Int.emod_eq_of_lt h0 hlt

/-- C7 witness: with two characters and current index 0, forward goes to
index 1, backward to index 1, and two forward steps return to index 0. -/
theorem C7_navigation_wraparound_witness :
    (navigateCharacter 2 .next sampleState).currentCharacterIndex =
      (sampleState.currentCharacterIndex + 1) % 2 ∧
    (navigateCharacter 2 .prev sampleState).currentCharacterIndex =
      (sampleState.currentCharacterIndex - 1 + 2) % 2 ∧
    (navigateForward 2 (2 : Int).toNat sampleState).currentCharacterIndex =
      sampleState.currentCharacterIndex :=
  C7_navigation_wraparound 2 sampleState (by decide) (by decide) (by decide)

/-- C8 (confirmed, against the spec-modelled stat engine): `computeStats`
fails with InvalidInput exactly when the level leaves `[1, 99]` or the rarity
is not one of the four known tiers; with a valid level and rarity it succeeds
for every loadout — in particular an empty loadout never causes a failure. -/
theorem C8_computeStats_validation (ch : Character)
    (loadout : SelectedEquipment) (level : Nat) (rarity : String) :
    ((level < 1 ∨ 99 < level) ∨ rarity ∉ rarityTiers →
      computeStats ch loadout level rarity = .error .InvalidInput) ∧
    (1 ≤ level → level ≤ 99 → rarity ∈ rarityTiers →
      (computeStats ch loadout level rarity).isOk = true) := by
  constructor
  · intro h
    by_cases hl : level < 1 ∨ 99 < level
    · unfold computeStats
      rw [if_pos hl]
    · rcases h with h | h
      · exact absurd h hl
      · unfold computeStats
        rw [if_neg hl, if_neg h]
  · intro h1 h2 h3
    have hl : ¬ (level < 1 ∨ 99 < level) := by omega
    unfold computeStats
    rw [if_neg hl, if_pos h3]
    rfl

/-- C8 witness: level 0 and level 100 are rejected, an unknown rarity is
rejected, and level 50 with rarity `"Rare"` succeeds on an empty loadout. -/
theorem C8_computeStats_validation_witness :
    computeStats chMark emptyEquipment 0 "Rare" = .error .InvalidInput ∧
    computeStats chMark emptyEquipment 100 "Rare" = .error .InvalidInput ∧
    computeStats chMark emptyEquipment 50 "Mythic" = .error .InvalidInput ∧
    (computeStats chMark emptyEquipment 50 "Rare").isOk = true :=
  ⟨(C8_computeStats_validation chMark emptyEquipment 0 "Rare").1
      (Or.inl (by decide)),
    (C8_computeStats_validation chMark emptyEquipment 100 "Rare").1
      (Or.inl (by decide)),
    (C8_computeStats_validation chMark emptyEquipment 50 "Mythic").1
      (Or.inr (by decide)),
    (C8_computeStats_validation chMark emptyEquipment 50 "Rare").2
      (by decide) (by decide) (by decide)⟩

/-- C9 (confirmed): with category `c` pending, equipping an item writes that
slot and leaves the other three slots, the level, the rarity, and the
technique list unchanged. -/
theorem C9_equip_frame (s : ModalState) (c : Category) (item : Equipment)
    (hc : s.selectedCategory = some c) :
    (handleEquipmentSelect item s).selectedEquipment.slot c = some item ∧
    (∀ c' : Category, c' ≠ c →
      (handleEquipmentSelect item s).selectedEquipment.slot c' =
        s.selectedEquipment.slot c') ∧
    (handleEquipmentSelect item s).userLevel = s.userLevel ∧
    (handleEquipmentSelect item s).userRarity = s.userRarity ∧
    (handleEquipmentSelect item s).selectedHissatsu = s.selectedHissatsu := by
  have hs : handleEquipmentSelect item s =
      { s with
        selectedEquipment := s.selectedEquipment.setSlot c item
        showEquipmentList := false
        selectedCategory := none } := by
    simp [handleEquipmentSelect, hc]
  rw [hs]
  refine ⟨?_, fun c' hne => ?_, rfl, rfl, rfl⟩
  · cases c <;> rfl
  · cases c <;> cases c' <;>
      first
        | exact absurd rfl hne
        | rfl

/-- C9 witness: with the boots slot pending, equipping Sonic Boots fills the
boots slot and leaves the pendant slot and the technique list as before. -/
theorem C9_equip_frame_witness :
    (handleEquipmentSelect eqBootsA
        (clickEquipmentSlot .boots sampleState)).selectedEquipment.slot
      .boots = some eqBootsA ∧
    (handleEquipmentSelect eqBootsA
        (clickEquipmentSlot .boots sampleState)).selectedEquipment.slot
      .pendant =
      (clickEquipmentSlot .boots sampleState).selectedEquipment.slot
        .pendant ∧
    (handleEquipmentSelect eqBootsA
        (clickEquipmentSlot .boots sampleState)).selectedHissatsu =
      (clickEquipmentSlot .boots sampleState).selectedHissatsu :=
  ⟨(C9_equip_frame (clickEquipmentSlot .boots sampleState) .boots
      eqBootsA rfl).1,
    (C9_equip_frame (clickEquipmentSlot .boots sampleState) .boots
      eqBootsA rfl).2.1 .pendant (by decide),
    (C9_equip_frame (clickEquipmentSlot .boots sampleState) .boots
      eqBootsA rfl).2.2.2.2⟩

/-- C10 (confirmed): starting from a character index in `[0, n)`, the index
is still in `[0, n)` after any sequence of forward/backward navigations. -/
theorem C10_index_invariant (n : Int) (ds : List Direction) (s : ModalState)
    (hn : 0 < n) (h0 : 0 ≤ s.currentCharacterIndex)
    (hlt : s.currentCharacterIndex < n) :
    0 ≤ (navigateSeq n ds s).currentCharacterIndex ∧
    (navigateSeq n ds s).currentCharacterIndex < n := by
  induction ds generalizing s with
  | nil => exact ⟨h0, hlt⟩
  | cons d ds ih =>
      have h := navigateCharacter_index_bounds n hn d s h0 hlt
      exact ih (navigateCharacter n d s) h.1 h.2

/-- C10 witness: three clicks from the two-character fixture state keep the
index in `[0, 2)`. -/
theorem C10_index_invariant_witness :
    0 ≤ (navigateSeq 2 [.next, .prev, .prev]
        sampleState).currentCharacterIndex ∧
    (navigateSeq 2 [.next, .prev, .prev]
        sampleState).currentCharacterIndex < 2 :=
  C10_index_invariant 2 [.next, .prev, .prev] sampleState (by decide)
    (by decide) (by decide)
